import Mathlib

deriving instance DecidableEq for Except

/-!
Formal model of the gateway in src/ai/api/server.py: credential verification
and token issuance, token validation on protected calls, fixed-window rate
limiting, and the inference endpoint pipeline. Time is modelled in epoch
seconds (the spec fixes second-level granularity for expiry comparisons).
-/

namespace AIServer

/-- HTTP-level error outcome: status code, detail message, and the
retry-after seconds the rate limiter computes for 429 responses. -/
structure HTTPError where
  status : Nat
  detail : String
  retryAfter : Option Nat
deriving DecidableEq

/-- User record of the user db (server.py lines 68-75 and 82-90). Optional
profile fields are omitted: no claim inspects them. -/
structure UserRec where
  username : String
  hashed_password : String
  disabled : Bool
deriving DecidableEq

/-- The in-memory user database, a map from username to record
(fake_users_db, lines 82-90). -/
abbrev UsersDB := List (String × UserRec)

/-- Models passlib bcrypt hashing (pwd_context.hash, line 48). The control
flow under study depends only on whether verification of a plaintext against
a stored hash succeeds, so the hash is modelled as an injective tagging of
the plaintext. -/
def pwdHash (plain : String) : String := "bcrypt$" ++ plain

/-- verify_password (lines 110-111): pwd_context.verify succeeds exactly when
the plaintext hashes to the stored hash. -/
def verify_password (plain hashed : String) : Bool := pwdHash plain == hashed

/-- fake_users_db (lines 82-90): a single enabled user testuser with password
testpassword. -/
def fake_users_db : UsersDB :=
  [("testuser", ⟨"testuser", pwdHash "testpassword", false⟩)]

/-- get_user (lines 113-117): returns the record when the username is a key
of the db, otherwise the python code returns None. -/
def get_user (db : UsersDB) (username : String) : Option UserRec :=
  db.lookup username

/-- authenticate_user (lines 119-125): returns the user on success, none
where the python code returns False. Note that the disabled flag is not
consulted here. -/
def authenticate_user (db : UsersDB) (username password : String) : Option UserRec :=
  match get_user db username with
  | none => none
  | some user =>
    if verify_password password user.hashed_password then some user else none

/-- JWT claim set as produced by create_access_token: the sub claim (none
models a token whose payload lacks sub, line 142-144) and exp in epoch
seconds. -/
structure JWTPayload where
  sub : Option String
  exp : Nat
deriving DecidableEq

/-- A presented bearer token: either a string that does not parse as a JWS at
all, or a parsed payload together with its signature, modelled as the bit
sequence of the signature bytes. -/
inductive Token where
  | garbage (raw : String)
  | jws (payload : JWTPayload) (sig : List Bool)
deriving DecidableEq

/-- SECRET_KEY default (line 43). -/
def SECRET_KEY : String := "your-secret-key-for-jwt-encryption"

/-- ACCESS_TOKEN_EXPIRE_MINUTES (line 45). -/
def ACCESS_TOKEN_EXPIRE_MINUTES : Nat := 30

/-- Bits of one character, least significant first. -/
def charBits (c : Char) : List Bool := (List.range 8).map (fun i => Nat.testBit c.toNat i)

/-- Bit sequence of a character list. -/
def bitsOfChars : List Char → List Bool
  | [] => []
  | c :: cs => charBits c ++ bitsOfChars cs

/-- Bit sequence of a string. -/
def stringBits (s : String) : List Bool := bitsOfChars s.toList

/-- Canonical serialization of a payload, used as MAC input. -/
def serializePayload (p : JWTPayload) : String :=
  (match p.sub with | none => "-" | some s => s) ++ "." ++ toString p.exp

/-- The HS256 signature of a payload under a key, modelled as a deterministic
function of key and payload; the validation logic depends only on equality of
signature bit sequences. -/
def macSig (key : String) (p : JWTPayload) : List Bool :=
  stringBits (key ++ "." ++ serializePayload p)

/-- Failure of jose.jwt.decode. ExpiredSignatureError and all parse or
signature failures are subclasses of JWTError, so the except JWTError clause
at line 146 catches both kinds. -/
inductive JoseError where
  | malformed
  | expired
deriving DecidableEq

/-- Embeds jose.jwt.decode(token, key, algorithms=[HS256]) as called at line
141, at epoch second now: parsing and signature verification come first; then
claim validation raises ExpiredSignatureError iff exp < now (python-jose
_validate_exp with leeway 0 - note the strict comparison: a token is not yet
expired at now = exp). -/
def jwtDecode (key : String) (t : Token) (now : Nat) : Except JoseError JWTPayload :=
  match t with
  | .garbage _ => .error .malformed
  | .jws p sig =>
    if sig = macSig key p then
      if p.exp < now then .error .expired else .ok p
    else .error .malformed

/-- create_access_token (lines 127-132) at epoch second now, with data
sub = username: exp = now + 30 * 60 seconds (jose truncates the exp datetime
to whole seconds via utctimetuple, and the timedelta is a whole number of
seconds). -/
def create_access_token (now : Nat) (sub : String) : Token :=
  .jws ⟨some sub, now + ACCESS_TOKEN_EXPIRE_MINUTES * 60⟩
    (macSig SECRET_KEY ⟨some sub, now + ACCESS_TOKEN_EXPIRE_MINUTES * 60⟩)

/-- The HTTPException built at lines 135-139. -/
def credentials_exception : HTTPError := ⟨401, "Could not validate credentials", none⟩

/-- get_current_user (lines 134-153): decode failures of either kind are
caught by the except JWTError clause and mapped to the single 401 credentials
error; then the sub claim must be present, the user must exist in the db, and
a disabled user is rejected with 400 Inactive user. -/
def get_current_user (db : UsersDB) (token : Token) (now : Nat) : Except HTTPError UserRec :=
  match jwtDecode SECRET_KEY token now with
  | .error _ => .error credentials_exception
  | .ok payload =>
    match payload.sub with
    | none => .error credentials_exception
    | some username =>
      match get_user db username with
      | none => .error credentials_exception
      | some user =>
        if user.disabled then .error ⟨400, "Inactive user", none⟩
        else .ok user

/-- get_current_active_user (lines 155-158). -/
def get_current_active_user (db : UsersDB) (token : Token) (now : Nat) : Except HTTPError UserRec :=
  match get_current_user db token now with
  | .error e => .error e
  | .ok user =>
    if user.disabled then .error ⟨400, "Inactive user", none⟩ else .ok user

/-- login_for_access_token (lines 161-172): authenticate, then issue a token
for the authenticated username; failure is the 401 of lines 165-169. -/
def login_for_access_token (db : UsersDB) (now : Nat) (username password : String) :
    Except HTTPError Token :=
  match authenticate_user db username password with
  | none => .error ⟨401, "Incorrect username or password", none⟩
  | some user => .ok (create_access_token now user.username)

/-- Per-key window of the fixed-window strategy: the second at which the
window was opened and the hits counted in it. -/
structure RateWindow where
  start : Nat
  count : Nat
deriving DecidableEq

/-- Rate limiter state: a map from limiter key to its current window. -/
abbrev LimiterState := List (String × RateWindow)

/-- Window duration of the 5/minute limit (line 179). -/
def WINDOW_SECONDS : Nat := 60

/-- Hit limit of the 5/minute limit (line 179). -/
def RATE_LIMIT : Nat := 5

/-- Outcome of one rate-limit hit. -/
inductive AdmitResult where
  | admitted
  | rejected (retryAfter : Nat)
deriving DecidableEq

/-- Replace or insert the window stored for a key. -/
def updateState (st : LimiterState) (key : String) (w : RateWindow) : LimiterState :=
  match st with
  | [] => [(key, w)]
  | (k, w0) :: rest =>
    if k = key then (key, w) :: rest else (k, w0) :: updateState rest key w

/-- Embeds one hit of the slowapi decorator limiter.limit with value 5/minute
(line 179), i.e. the fixed-window strategy of the limits library: the counter
for a key is created with a 60 s expiry at the first hit of the window,
incremented on every hit, and the hit is admitted iff the incremented count
stays within the limit; a rejection carries window reset time minus now, the
wait slowapi reports as Retry-After. The limiter key is produced by
key_func = get_remote_address (line 38): the client IP address. -/
def tryAdmit (st : LimiterState) (key : String) (now : Nat) : AdmitResult × LimiterState :=
  match st.lookup key with
  | some w =>
    if now < w.start + WINDOW_SECONDS then
      if w.count + 1 ≤ RATE_LIMIT then
        (.admitted, updateState st key ⟨w.start, w.count + 1⟩)
      else
        (.rejected (w.start + WINDOW_SECONDS - now), updateState st key ⟨w.start, w.count + 1⟩)
    else (.admitted, updateState st key ⟨now, 1⟩)
  | none => (.admitted, updateState st key ⟨now, 1⟩)

/-- Results of a sequence of hits for one key, starting from a given state,
at the given sequence of times. -/
def admitRun (st : LimiterState) (k : String) : List Nat → List AdmitResult
  | [] => []
  | t :: ts => (tryAdmit st k t).1 :: admitRun (tryAdmit st k t).2 k ts

/-- InferenceRequest (lines 77-79): input_data is a list of floats whose
values the gateway never inspects - only the length is checked - so entries
are modelled opaquely as integers. -/
structure InferenceRequest where
  input_data : List Int
  model_version : String
deriving DecidableEq

/-- Body of run_inference (lines 185-212). Both HTTPExceptions raised inside
the try block - the 503 model-not-loaded of line 187 and the 400 wrong input
size of line 195 - are instances of Exception, so the except clause at line
207 catches them and re-raises status 500 with detail built from str(e),
which starlette renders as status colon detail. modelFn is the opaque Compute
capability (none when model loading failed, line 107). -/
def inferenceBody (modelFn : Option (List Int → List Int)) (req : InferenceRequest) :
    Except HTTPError (List Int × String) :=
  match modelFn with
  | none => .error ⟨500, "Inference failed: 503: AI model not loaded", none⟩
  | some f =>
    if req.input_data.length = 10 then .ok (f req.input_data, req.model_version)
    else .error ⟨500, "Inference failed: 400: Input data must have 10 elements", none⟩

/-- One protected call to POST /inference. FastAPI resolves the dependency
get_current_active_user before invoking the route handler; the slowapi
wrapper around the handler then performs the rate-limit hit keyed by the
client IP; only then does the endpoint body run. A 429 rejection is rendered
by the slowapi handler together with the computed wait time. -/
def run_inference (db : UsersDB) (modelFn : Option (List Int → List Int))
    (st : LimiterState) (clientIP : String) (token : Token) (req : InferenceRequest)
    (now : Nat) : Except HTTPError (List Int × String) × LimiterState :=
  match get_current_active_user db token now with
  | .error e => (.error e, st)
  | .ok _ =>
    match tryAdmit st clientIP now with
    | (.admitted, st2) => (inferenceBody modelFn req, st2)
    | (.rejected ra, st2) =>
      (.error ⟨429, "Rate limit exceeded: 5 per 1 minute", some ra⟩, st2)

/-- Results and final state of a sequence of protected calls from one client
IP. -/
def inferenceRun (db : UsersDB) (modelFn : Option (List Int → List Int))
    (st : LimiterState) (clientIP : String) :
    List (Token × InferenceRequest × Nat) →
      List (Except HTTPError (List Int × String)) × LimiterState
  | [] => ([], st)
  | (tok, req, now) :: rest =>
    let step := run_inference db modelFn st clientIP tok req now
    let tail := inferenceRun db modelFn step.2 clientIP rest
    (step.1 :: tail.1, tail.2)

/-- Whether a call outcome is a rate-limit rejection (status 429). -/
def isThrottled (r : Except HTTPError (List Int × String)) : Bool :=
  match r with
  | .error e => e.status == 429
  | .ok _ => false

/-- Flip bit i of a bit sequence. -/
def flipBit : List Bool → Nat → List Bool
  | [], _ => []
  | b :: bs, 0 => (!b) :: bs
  | b :: bs, i + 1 => b :: flipBit bs i

/-- A db with one disabled user carol whose password is pw. -/
def disabledUserDb : UsersDB := [("carol", ⟨"carol", pwdHash "pw", true⟩)]

/-- A db with two enabled users alice and bob. -/
def twoUserDb : UsersDB :=
  [("alice", ⟨"alice", pwdHash "a", false⟩), ("bob", ⟨"bob", pwdHash "b", false⟩)]

/-- Token issued to alice at second 0. -/
def tokenAlice : Token := create_access_token 0 "alice"

/-- Token issued to bob at second 0. -/
def tokenBob : Token := create_access_token 0 "bob"

/-- A well-shaped request payload of 10 elements. -/
def req10 : InferenceRequest := ⟨[0, 0, 0, 0, 0, 0, 0, 0, 0, 0], "v1"⟩

/-- A concrete loaded model standing in for the opaque Compute capability. -/
def dummyModel : Option (List Int → List Int) := some (fun _ => [0])

set_option maxRecDepth 16000

/-- Flipping a bit inside a bit sequence changes it. -/
theorem flipBit_ne : ∀ (l : List Bool) (i : Nat), i < l.length → flipBit l i ≠ l
  | [], i, h => by simp at h
  | b :: bs, 0, _ => by cases b <;> simp [flipBit]
  | b :: bs, i + 1, h => by
    simp only [flipBit, ne_eq, List.cons.injEq, true_and]
    exact flipBit_ne bs i (by simpa using h)

/-- The endpoint body never produces a 429 outcome. -/
theorem isThrottled_inferenceBody (m : Option (List Int → List Int)) (r : InferenceRequest) :
    isThrottled (inferenceBody m r) = false := by
  cases m with
  | none => rfl
  | some f =>
    by_cases h : r.input_data.length = 10 <;> simp [inferenceBody, isThrottled, h]

/-- First hit of a key on an empty limiter state opens a window and admits. -/
theorem tryAdmit_fresh (k : String) (now : Nat) :
    tryAdmit [] k now = (.admitted, [(k, ⟨now, 1⟩)]) := rfl

/-- A hit inside the window with room left increments and admits. -/
theorem tryAdmit_inWindow (k : String) (t0 c now : Nat) (h : now < t0 + 60)
    (hc : c + 1 ≤ 5) :
    tryAdmit [(k, ⟨t0, c⟩)] k now = (.admitted, [(k, ⟨t0, c + 1⟩)]) := by
  simp [tryAdmit, List.lookup, WINDOW_SECONDS, RATE_LIMIT, updateState, h, hc]

/-- A hit inside the window with the limit reached is rejected with the wait
until the window resets. -/
theorem tryAdmit_rejected (k : String) (t0 c now : Nat) (h : now < t0 + 60)
    (hc : ¬ c + 1 ≤ 5) :
    tryAdmit [(k, ⟨t0, c⟩)] k now = (.rejected (t0 + 60 - now), [(k, ⟨t0, c + 1⟩)]) := by
  simp [tryAdmit, List.lookup, WINDOW_SECONDS, RATE_LIMIT, updateState, h, hc]

/-- A hit at or past the window boundary opens a fresh window and admits. -/
theorem tryAdmit_afterWindow (k : String) (t0 c now : Nat) (h : t0 + 60 ≤ now) :
    tryAdmit [(k, ⟨t0, c⟩)] k now = (.admitted, [(k, ⟨now, 1⟩)]) := by
  have h2 : ¬ now < t0 + 60 := by omega
  simp [tryAdmit, List.lookup, WINDOW_SECONDS, updateState, h2]

/-- C1: code evaluation at the failing input. A protected call holding a valid
admitted token whose payload vector has 3 elements is answered with status 500
(detail Inference failed: 400: Input data must have 10 elements), not with the
400 InvalidRequest outcome the claim states: the HTTPException(400) raised at
line 195 inside the try block is an Exception, so the blanket except at line
207 catches it and re-raises it as a 500. -/
theorem c1_wrong_size_payload_returns_500 :
    run_inference fake_users_db dummyModel [] "9.9.9.9" (create_access_token 0 "testuser")
        ⟨[1, 2, 3], "v1"⟩ 0 =
      (.error ⟨500, "Inference failed: 400: Input data must have 10 elements", none⟩,
        [("9.9.9.9", ⟨0, 1⟩)]) := by
  rfl

/-- C2 counterexample: a disabled identity presenting the correct secret is
authenticated and receives a token, so login does not fail with
InvalidCredentials for disabled records as the claim states. -/
theorem c2_disabled_login_succeeds :
    authenticate_user disabledUserDb "carol" "pw" = some ⟨"carol", pwdHash "pw", true⟩ ∧
    login_for_access_token disabledUserDb 0 "carol" "pw" =
      .ok (create_access_token 0 "carol") := by
  exact ⟨rfl, rfl⟩

/-- C2 amended: login fails, with the one identical 401 error, exactly in the
two cases the code checks - identity absent from the store, or secret
mismatch; the disabled flag is not consulted at login. -/
theorem c2_login_error_uniform (db : UsersDB) (now : Nat) (u p : String)
    (h : get_user db u = none ∨
      ∃ r, get_user db u = some r ∧ verify_password p r.hashed_password = false) :
    authenticate_user db u p = none ∧
    login_for_access_token db now u p =
      .error ⟨401, "Incorrect username or password", none⟩ := by
  have ha : authenticate_user db u p = none := by
    rcases h with h | ⟨r, hr, hv⟩
    · simp [authenticate_user, h]
    · simp [authenticate_user, hr, hv]
  exact ⟨ha, by simp [login_for_access_token, ha]⟩

/-- C2 witness: the amended theorem at the concrete absent identity ghost. -/
theorem c2_login_error_uniform_witness :
    authenticate_user fake_users_db "ghost" "pw" = none ∧
    login_for_access_token fake_users_db 0 "ghost" "pw" =
      .error ⟨401, "Incorrect username or password", none⟩ :=
  c2_login_error_uniform fake_users_db 0 "ghost" "pw" (Or.inl (by decide))

/-- C3 counterexample: at query time exactly issue time plus TTL (1800 s) the
token still validates, returning the identity, whereas the claim requires
failure with Expired at every such time: python-jose raises
ExpiredSignatureError only when exp is strictly below now. -/
theorem c3_validates_at_exact_ttl :
    jwtDecode SECRET_KEY (create_access_token 0 "testuser") 1800 =
      .ok ⟨some "testuser", 1800⟩ := by
  decide

/-- C3 amended: a token issued at t for id decodes successfully, returning id,
at every query time up to and including t + 1800, and fails with
ExpiredSignatureError at every strictly later time. -/
theorem c3_token_validity_window (t tq : Nat) (id : String) :
    (t ≤ tq → tq ≤ t + 1800 →
      jwtDecode SECRET_KEY (create_access_token t id) tq = .ok ⟨some id, t + 1800⟩) ∧
    (t + 1800 < tq →
      jwtDecode SECRET_KEY (create_access_token t id) tq = .error .expired) := by
  constructor
  · intro h1 h2
    simp only [create_access_token, jwtDecode, ACCESS_TOKEN_EXPIRE_MINUTES,
      eq_self_iff_true, if_true]
    rw [if_neg (by omega)]
  · intro h
    simp only [create_access_token, jwtDecode, ACCESS_TOKEN_EXPIRE_MINUTES,
      eq_self_iff_true, if_true]
    rw [if_pos (by omega)]

/-- C3 witness: the amended theorem at issue time 100, query times 1900 and
1901. -/
theorem c3_token_validity_window_witness :
    jwtDecode SECRET_KEY (create_access_token 100 "testuser") 1900 =
      .ok ⟨some "testuser", 1900⟩ ∧
    jwtDecode SECRET_KEY (create_access_token 100 "testuser") 1901 = .error .expired :=
  ⟨(c3_token_validity_window 100 1900 "testuser").1 (by omega) (by omega),
   (c3_token_validity_window 100 1901 "testuser").2 (by omega)⟩

/-- C4 counterexample: an unparseable token and a correctly signed but expired
token are answered with the one identical 401 credentials error, so the two
failure kinds are not distinguishable in the returned error; moreover at now
equal to the embedded expiry the decode still succeeds, against the claimed
boundary now at-or-after expiry. -/
theorem c4_same_error_both_kinds :
    get_current_user fake_users_db (.garbage "zz") 1000 = .error credentials_exception ∧
    get_current_user fake_users_db (create_access_token 0 "testuser") 5000 =
      .error credentials_exception ∧
    jwtDecode SECRET_KEY (create_access_token 0 "testuser") 5000 = .error .expired ∧
    jwtDecode SECRET_KEY (create_access_token 0 "testuser") 1800 ≠ .error .expired := by
  refine ⟨rfl, by decide, by decide, by decide⟩

/-- C4 amended: decode fails as malformed exactly for unparseable tokens and
signature mismatches, and as expired exactly for correctly signed tokens whose
expiry is strictly below now; but get_current_user maps every decode failure,
of either kind, to the one identical 401 credentials error. -/
theorem c4_failure_kinds (db : UsersDB) (p : JWTPayload) (s : List Bool) (tok : Token)
    (raw : String) (now : Nat) :
    (jwtDecode SECRET_KEY (.garbage raw) now = .error .malformed) ∧
    (jwtDecode SECRET_KEY (.jws p s) now = .error .malformed ↔ s ≠ macSig SECRET_KEY p) ∧
    (jwtDecode SECRET_KEY (.jws p s) now = .error .expired ↔
      s = macSig SECRET_KEY p ∧ p.exp < now) ∧
    (∀ e, jwtDecode SECRET_KEY tok now = .error e →
      get_current_user db tok now = .error credentials_exception) := by
  refine ⟨rfl, ?_, ?_, ?_⟩
  · by_cases hs : s = macSig SECRET_KEY p
    · by_cases he : p.exp < now <;> simp [jwtDecode, hs, he]
    · simp [jwtDecode, hs]
  · by_cases hs : s = macSig SECRET_KEY p
    · by_cases he : p.exp < now <;> simp [jwtDecode, hs, he]
    · simp [jwtDecode, hs]
  · intro e he
    simp [get_current_user, he]

/-- C4 witness: the amended theorem at a concrete bad-signature token. -/
theorem c4_failure_kinds_witness :
    jwtDecode SECRET_KEY (.jws ⟨some "testuser", 1800⟩ []) 0 = .error .malformed ∧
    get_current_user fake_users_db (.garbage "zz") 0 = .error credentials_exception :=
  ⟨((c4_failure_kinds fake_users_db ⟨some "testuser", 1800⟩ [] (.garbage "zz") "zz" 0).2.1).2
      (by decide),
   (c4_failure_kinds fake_users_db ⟨some "testuser", 1800⟩ [] (.garbage "zz") "zz" 0).2.2.2
      .malformed (by decide)⟩

/-- C5: fixed-window behaviour for one limiter key with limit 5 and window
60 s, from empty state: five hits within the window opened by the first hit
are all admitted, the sixth is rejected with a positive retry-after equal to
the wait until the window boundary, and a hit at or past the boundary is
admitted again. -/
theorem c5_fixed_window (k : String) (t1 t2 t3 t4 t5 t6 t7 : Nat)
    (h12 : t1 ≤ t2) (h23 : t2 ≤ t3) (h34 : t3 ≤ t4) (h45 : t4 ≤ t5) (h56 : t5 ≤ t6)
    (h6 : t6 < t1 + 60) (h7 : t1 + 60 ≤ t7) :
    admitRun [] k [t1, t2, t3, t4, t5, t6, t7] =
      [.admitted, .admitted, .admitted, .admitted, .admitted,
        .rejected (t1 + 60 - t6), .admitted] ∧
    0 < t1 + 60 - t6 := by
  have s1 := tryAdmit_fresh k t1
  have s2 := tryAdmit_inWindow k t1 1 t2 (by omega) (by omega)
  have s3 := tryAdmit_inWindow k t1 2 t3 (by omega) (by omega)
  have s4 := tryAdmit_inWindow k t1 3 t4 (by omega) (by omega)
  have s5 := tryAdmit_inWindow k t1 4 t5 (by omega) (by omega)
  have s6 := tryAdmit_rejected k t1 5 t6 (by omega) (by omega)
  have s7 := tryAdmit_afterWindow k t1 6 t7 (by omega)
  refine ⟨?_, by omega⟩
  simp only [admitRun, s1, s2, s3, s4, s5, s6, s7]

/-- C5 witness: the theorem at hit times 0, 10, 20, 30, 40, 50 and 60. -/
theorem c5_fixed_window_witness :
    admitRun [] "10.0.0.1" [0, 10, 20, 30, 40, 50, 60] =
      [.admitted, .admitted, .admitted, .admitted, .admitted, .rejected 10, .admitted] ∧
    0 < (10 : Nat) :=
  c5_fixed_window "10.0.0.1" 0 10 20 30 40 50 60 (by omega) (by omega) (by omega)
    (by omega) (by omega) (by omega) (by omega)

/-- C6 counterexample: the limiter key is the client IP, not the identity.
Five admitted calls by alice from one address exhaust that address, so the
first call by the distinct identity bob from the same address is throttled -
the two identities share one counter; and after five admitted calls by alice
from one address, a sixth call by alice from a different address is admitted -
one identity is accounted in two counters. -/
theorem c6_ip_key_counterexample :
    (inferenceRun twoUserDb dummyModel [] "5.5.5.5"
        [(tokenAlice, req10, 0), (tokenAlice, req10, 0), (tokenAlice, req10, 0),
          (tokenAlice, req10, 0), (tokenAlice, req10, 0), (tokenBob, req10, 0)]).1 =
      [.ok ([0], "v1"), .ok ([0], "v1"), .ok ([0], "v1"), .ok ([0], "v1"), .ok ([0], "v1"),
        .error ⟨429, "Rate limit exceeded: 5 per 1 minute", some 60⟩] ∧
    (run_inference twoUserDb dummyModel
        (inferenceRun twoUserDb dummyModel [] "1.1.1.1"
          [(tokenAlice, req10, 0), (tokenAlice, req10, 0), (tokenAlice, req10, 0),
            (tokenAlice, req10, 0), (tokenAlice, req10, 0)]).2
        "2.2.2.2" tokenAlice req10 0).1 = .ok ([0], "v1") := by
  exact ⟨rfl, rfl⟩

/-- C6 amended: the admission decision and the limiter state transition of a
protected call depend only on the client IP, the prior state and the time -
not on which authenticated identity presents the token: two authenticated
calls from the same address at the same time and state receive the same
throttling outcome and leave the same limiter state. -/
theorem c6_limiter_keyed_by_ip (db : UsersDB) (modelFn : Option (List Int → List Int))
    (st : LimiterState) (ip : String) (tok1 tok2 : Token) (req1 req2 : InferenceRequest)
    (now : Nat) (u1 u2 : UserRec)
    (h1 : get_current_active_user db tok1 now = .ok u1)
    (h2 : get_current_active_user db tok2 now = .ok u2) :
    (run_inference db modelFn st ip tok1 req1 now).2 =
      (run_inference db modelFn st ip tok2 req2 now).2 ∧
    isThrottled (run_inference db modelFn st ip tok1 req1 now).1 =
      isThrottled (run_inference db modelFn st ip tok2 req2 now).1 := by
  rcases hA : tryAdmit st ip now with ⟨r, st2⟩
  cases r with
  | admitted => simp [run_inference, h1, h2, hA, isThrottled_inferenceBody]
  | rejected ra => simp [run_inference, h1, h2, hA]

/-- C6 amended witness: alice and bob calling from the same address. -/
theorem c6_limiter_keyed_by_ip_witness :
    (run_inference twoUserDb dummyModel [] "3.3.3.3" tokenAlice req10 0).2 =
      (run_inference twoUserDb dummyModel [] "3.3.3.3" tokenBob req10 0).2 ∧
    isThrottled (run_inference twoUserDb dummyModel [] "3.3.3.3" tokenAlice req10 0).1 =
      isThrottled (run_inference twoUserDb dummyModel [] "3.3.3.3" tokenBob req10 0).1 :=
  c6_limiter_keyed_by_ip twoUserDb dummyModel [] "3.3.3.3" tokenAlice tokenBob req10 req10 0
    ⟨"alice", pwdHash "a", false⟩ ⟨"bob", pwdHash "b", false⟩ (by decide) (by decide)

/-- C7: the protected-call pipeline runs token validation, then admission,
then the endpoint body, with short-circuiting: a validation failure is
returned as-is with the limiter state untouched and for every model function
(so neither the limiter nor Compute runs); an admission rejection is returned
as the 429 throttled outcome for every model function (so Compute never
runs). -/
theorem c7_pipeline_short_circuit (db : UsersDB) (modelFn : Option (List Int → List Int))
    (st : LimiterState) (ip : String) (tok : Token) (req : InferenceRequest) (now : Nat) :
    (∀ e, get_current_active_user db tok now = .error e →
      run_inference db modelFn st ip tok req now = (.error e, st)) ∧
    (∀ u ra st2, get_current_active_user db tok now = .ok u →
      tryAdmit st ip now = (.rejected ra, st2) →
      run_inference db modelFn st ip tok req now =
        (.error ⟨429, "Rate limit exceeded: 5 per 1 minute", some ra⟩, st2)) := by
  constructor
  · intro e h
    simp [run_inference, h]
  · intro u ra st2 h1 h2
    simp [run_inference, h1, h2]

/-- C7 witness: a garbage token short-circuits before the limiter, and an
exhausted window short-circuits before the endpoint body. -/
theorem c7_pipeline_short_circuit_witness :
    run_inference fake_users_db dummyModel [] "7.7.7.7" (.garbage "x") req10 0 =
      (.error credentials_exception, []) ∧
    run_inference fake_users_db dummyModel [("7.7.7.7", ⟨0, 5⟩)] "7.7.7.7"
        (create_access_token 0 "testuser") req10 0 =
      (.error ⟨429, "Rate limit exceeded: 5 per 1 minute", some 60⟩, [("7.7.7.7", ⟨0, 6⟩)]) :=
  ⟨(c7_pipeline_short_circuit fake_users_db dummyModel [] "7.7.7.7" (.garbage "x")
      req10 0).1 credentials_exception (by decide),
   (c7_pipeline_short_circuit fake_users_db dummyModel [("7.7.7.7", ⟨0, 5⟩)] "7.7.7.7"
      (create_access_token 0 "testuser") req10 0).2 ⟨"testuser", pwdHash "testpassword", false⟩
      60 [("7.7.7.7", ⟨0, 6⟩)] (by decide) (by decide)⟩

/-- C8: flipping any single bit of the signature of a correctly signed token
makes decoding fail as malformed, and get_current_user answers the 401
credentials error - the embedded identity is never returned. -/
theorem c8_bitflip_malformed (p : JWTPayload) (i : Nat) (db : UsersDB) (now : Nat)
    (h : i < (macSig SECRET_KEY p).length) :
    jwtDecode SECRET_KEY (.jws p (flipBit (macSig SECRET_KEY p) i)) now =
      .error .malformed ∧
    get_current_user db (.jws p (flipBit (macSig SECRET_KEY p) i)) now =
      .error credentials_exception := by
  have hne : flipBit (macSig SECRET_KEY p) i ≠ macSig SECRET_KEY p := flipBit_ne _ _ h
  have hdec : jwtDecode SECRET_KEY (.jws p (flipBit (macSig SECRET_KEY p) i)) now =
      .error .malformed := by
    simp [jwtDecode, hne]
  exact ⟨hdec, by simp [get_current_user, hdec]⟩

/-- C8 witness: the theorem at the token of testuser with bit 0 of the
signature flipped. -/
theorem c8_bitflip_malformed_witness :
    jwtDecode SECRET_KEY
        (.jws ⟨some "testuser", 1800⟩ (flipBit (macSig SECRET_KEY ⟨some "testuser", 1800⟩) 0))
        0 = .error .malformed ∧
    get_current_user fake_users_db
        (.jws ⟨some "testuser", 1800⟩ (flipBit (macSig SECRET_KEY ⟨some "testuser", 1800⟩) 0))
        0 = .error credentials_exception :=
  c8_bitflip_malformed ⟨some "testuser", 1800⟩ 0 fake_users_db 0 (by decide)

/-- C9: a correctly signed, unexpired token whose embedded identity is absent
from the user store is rejected with exactly the 401 credentials error that a
malformed token receives, and the same token is accepted under a store that
does contain the identity - validation consults the store and is not purely
stateless over the token contents. -/
theorem c9_unknown_user_same_error (db : UsersDB) (tok : Token) (now : Nat)
    (p : JWTPayload) (u : String)
    (h1 : jwtDecode SECRET_KEY tok now = .ok p) (h2 : p.sub = some u)
    (h3 : get_user db u = none) :
    get_current_user db tok now = .error credentials_exception ∧
    (∀ raw, get_current_user db (.garbage raw) now = .error credentials_exception) ∧
    (∀ hash, get_current_user [(u, ⟨u, hash, false⟩)] tok now = .ok ⟨u, hash, false⟩) := by
  refine ⟨?_, fun raw => rfl, ?_⟩
  · simp [get_current_user, h1, h2, h3]
  · intro hash
    simp [get_current_user, get_user, h1, h2]

/-- C9 witness: the theorem at a signed unexpired token for the absent
identity ghost. -/
theorem c9_unknown_user_same_error_witness :
    get_current_user fake_users_db (create_access_token 0 "ghost") 0 =
      .error credentials_exception ∧
    get_current_user fake_users_db (.garbage "zz") 0 = .error credentials_exception ∧
    get_current_user [("ghost", ⟨"ghost", pwdHash "g", false⟩)]
        (create_access_token 0 "ghost") 0 = .ok ⟨"ghost", pwdHash "g", false⟩ :=
  ⟨(c9_unknown_user_same_error fake_users_db (create_access_token 0 "ghost") 0
      ⟨some "ghost", 1800⟩ "ghost" (by decide) rfl (by decide)).1,
   (c9_unknown_user_same_error fake_users_db (create_access_token 0 "ghost") 0
      ⟨some "ghost", 1800⟩ "ghost" (by decide) rfl (by decide)).2.1 "zz",
   (c9_unknown_user_same_error fake_users_db (create_access_token 0 "ghost") 0
      ⟨some "ghost", 1800⟩ "ghost" (by decide) rfl (by decide)).2.2 (pwdHash "g")⟩

/-- C10: a protected call with a valid unexpired token for a disabled identity
is rejected with status 400 and detail Inactive user - distinct from the 401
credentials error - with the limiter state untouched, for every request body
and every model function, so neither the payload check nor Compute runs. -/
theorem c10_inactive_user_rejected (db : UsersDB) (modelFn : Option (List Int → List Int))
    (st : LimiterState) (ip : String) (tok : Token) (req : InferenceRequest) (now : Nat)
    (p : JWTPayload) (u : String) (r : UserRec)
    (h1 : jwtDecode SECRET_KEY tok now = .ok p) (h2 : p.sub = some u)
    (h3 : get_user db u = some r) (h4 : r.disabled = true) :
    run_inference db modelFn st ip tok req now = (.error ⟨400, "Inactive user", none⟩, st) ∧
    (⟨400, "Inactive user", none⟩ : HTTPError) ≠ credentials_exception := by
  have hu : get_current_user db tok now = .error ⟨400, "Inactive user", none⟩ := by
    simp [get_current_user, h1, h2, h3, h4]
  have hau : get_current_active_user db tok now = .error ⟨400, "Inactive user", none⟩ := by
    simp [get_current_active_user, hu]
  exact ⟨by simp [run_inference, hau], by decide⟩

/-- C10 witness: the theorem at a valid token for the disabled identity
carol. -/
theorem c10_inactive_user_rejected_witness :
    run_inference disabledUserDb dummyModel [] "8.8.8.8" (create_access_token 0 "carol")
        req10 0 = (.error ⟨400, "Inactive user", none⟩, []) ∧
    (⟨400, "Inactive user", none⟩ : HTTPError) ≠ credentials_exception :=
  c10_inactive_user_rejected disabledUserDb dummyModel [] "8.8.8.8"
    (create_access_token 0 "carol") req10 0 ⟨some "carol", 1800⟩ "carol"
    ⟨"carol", pwdHash "pw", true⟩ (by decide) rfl (by decide) rfl

end AIServer
